import Mathlib

/-!
Shallow embedding of the SolSpotBot trading bot (strategy.py, config.py,
main.py) and proofs about its decision engine, position state machine and
control loop.

Conventions of the embedding:
* Python floats are modelled as rationals (ℚ); all comparisons in the source
  are inequalities with slack, so exact rational arithmetic is faithful.
* Python division raises ZeroDivisionError exactly when the denominator is
  zero; fallible computations are modelled in `Except Unit`, and the
  try/except wrapper of should_buy maps an error to the value false.
* A kline list entry [open_time, open, high, low, close, volume, ...] is
  modelled by the structure `Candle`.
-/

namespace SolSpotBot

/-- One kline/candle: index 0 = open time, 1 = open, 2 = high, 3 = low,
4 = close, 5 = volume, as consumed by strategy.py and main.py. -/
structure Candle where
  openTime : Int
  openPrice : ℚ
  highPrice : ℚ
  lowPrice : ℚ
  closePrice : ℚ
  volume : ℚ
  deriving DecidableEq

/-- Python division: raises (here: Except.error) exactly on a zero
denominator, otherwise exact division. -/
def pydiv (a b : ℚ) : Except Unit ℚ :=
  if b = 0 then Except.error () else Except.ok (a / b)

/-- config.py: MAX_LOSS_PERCENT = 0.005 (0.5% hard stop-loss). -/
def MAX_LOSS_PERCENT : ℚ := 0.005

/-- config.py: WATCHDOG_MINUTES = 15. -/
def WATCHDOG_MINUTES : ℚ := 15

/-- strategy.py, calculate_candle_changes: close-to-close percentage moves
r1 (candles[0] to candles[1]) and r2 (candles[1] to candles[2]); raises
(ValueError) on fewer than 3 candles, and on a zero close used as
denominator (ZeroDivisionError). -/
def calculate_candle_changes (candles : List Candle) : Except Unit (ℚ × ℚ) :=
  match candles with
  | c0 :: c1 :: c2 :: _ =>
    match pydiv (c1.closePrice - c0.closePrice) c0.closePrice with
    | Except.error e => Except.error e
    | Except.ok q1 =>
      match pydiv (c2.closePrice - c1.closePrice) c1.closePrice with
      | Except.error e => Except.error e
      | Except.ok q2 => Except.ok (q1 * 100, q2 * 100)
  | _ => Except.error ()

/-- strategy.py, per-candle percentage change (close − open) / open × 100,
as computed inside calculate_four_candle_analysis. -/
def candleChange (c : Candle) : Except Unit ℚ :=
  match pydiv (c.closePrice - c.openPrice) c.openPrice with
  | Except.error e => Except.error e
  | Except.ok q => Except.ok (q * 100)

/-- strategy.py, calculate_four_candle_analysis: per-candle change and
redness (close < open) of the FIRST four candles of the list (indices
0..3); raises on fewer than 4 candles. -/
def calculate_four_candle_analysis (candles : List Candle) :
    Except Unit (List ℚ × List Bool) :=
  match candles with
  | c0 :: c1 :: c2 :: c3 :: _ =>
    match candleChange c0 with
    | Except.error e => Except.error e
    | Except.ok ch0 =>
      match candleChange c1 with
      | Except.error e => Except.error e
      | Except.ok ch1 =>
        match candleChange c2 with
        | Except.error e => Except.error e
        | Except.ok ch2 =>
          match candleChange c3 with
          | Except.error e => Except.error e
          | Except.ok ch3 =>
            Except.ok ([ch0, ch1, ch2, ch3],
              [decide (c0.closePrice < c0.openPrice),
               decide (c1.closePrice < c1.openPrice),
               decide (c2.closePrice < c2.openPrice),
               decide (c3.closePrice < c3.openPrice)])
  | _ => Except.error ()

/-- Python slice l[-n:] for a list of length ≥ n: the last n elements. -/
def lastN (n : Nat) (l : List Candle) : List Candle :=
  l.drop (l.length - n)

/-- Python l[-1] : last element, raising IndexError on an empty list. -/
def pyLast (l : List Candle) : Except Unit Candle :=
  match l.getLast? with
  | none => Except.error ()
  | some c => Except.ok c

/-- Python max(...) over a list of rationals, raising on an empty list. -/
def pyMax (l : List ℚ) : Except Unit ℚ :=
  match l with
  | [] => Except.error ()
  | x :: xs => Except.ok (xs.foldl max x)

/-- strategy.py, should_buy filter A body: intraday range of one candle,
(high − low) / open × 100. -/
def candleVol (c : Candle) : Except Unit ℚ :=
  match pydiv (c.highPrice - c.lowPrice) c.openPrice with
  | Except.error e => Except.error e
  | Except.ok q => Except.ok (q * 100)

/-- strategy.py, should_buy filter A loop over the last three candles:
returns false as soon as one candle has vol > 0.6, true if all pass;
propagates a division fault. -/
def volLoop : List Candle → Except Unit Bool
  | [] => Except.ok true
  | c :: rest =>
    match candleVol c with
    | Except.error e => Except.error e
    | Except.ok vol => if vol > 0.6 then Except.ok false else volLoop rest

/-- strategy.py, should_buy FILTER A (volatility): every one of the last
three candles must have (high − low)/open × 100 ≤ 0.6. -/
def volatilityFilter (candles : List Candle) : Except Unit Bool :=
  volLoop (lastN 3 candles)

/-- strategy.py, should_buy FILTER B (volume): with at least 20 candles,
the last candle volume must not be below the average of the last 20;
with fewer candles the filter is skipped (passes). -/
def volumeFilter (candles : List Candle) : Except Unit Bool :=
  if candles.length ≥ 20 then
    let volumes := (lastN 20 candles).map Candle.volume
    let average_volume := volumes.sum / (volumes.length : ℚ)
    match pyLast candles with
    | Except.error e => Except.error e
    | Except.ok last =>
      Except.ok (decide ¬(last.volume < average_volume))
  else Except.ok true

/-- strategy.py, should_buy FILTER C (distance from local high): with at
least 20 candles, (highest high of last 20 − last close)/last close × 100
must exceed 0.25; skipped otherwise. -/
def distanceFilter (candles : List Candle) : Except Unit Bool :=
  if candles.length ≥ 20 then
    match pyMax ((lastN 20 candles).map Candle.highPrice) with
    | Except.error e => Except.error e
    | Except.ok highest_high =>
      match pyLast candles with
      | Except.error e => Except.error e
      | Except.ok last =>
        match pydiv (highest_high - last.closePrice) last.closePrice with
        | Except.error e => Except.error e
        | Except.ok q => Except.ok (decide ¬(q * 100 ≤ 0.25))
  else Except.ok true

/-- strategy.py, should_buy FILTER D (synthetic M5 trend): with at least 5
candles, the close of the last candle must exceed the open of the candle
five places back; skipped otherwise. -/
def m5Filter (candles : List Candle) : Except Unit Bool :=
  if candles.length ≥ 5 then
    match (lastN 5 candles).head? with
    | none => Except.error ()
    | some c5 =>
      match pyLast candles with
      | Except.error e => Except.error e
      | Except.ok last =>
        Except.ok (decide ¬(last.closePrice ≤ c5.openPrice))
  else Except.ok true

/-- strategy.py, should_buy two-candle momentum condition: with at least 3
candles, fires when r1 ≥ 0.20 and r2 ≥ 0.30 (close-to-close moves of the
first three candles of the window). -/
def twoCandleSignal (candles : List Candle) : Except Unit Bool :=
  if candles.length ≥ 3 then
    match calculate_candle_changes candles with
    | Except.error e => Except.error e
    | Except.ok (r1, r2) => Except.ok (decide (r1 ≥ 0.20) && decide (r2 ≥ 0.30))
  else Except.ok false

/-- strategy.py, should_buy four-candle momentum condition: with at least 4
candles, fires when the sum of the four per-candle changes is ≥ 0.8 and
the fourth candle (index 3) is not red. -/
def fourCandleSignal (candles : List Candle) : Except Unit Bool :=
  if candles.length ≥ 4 then
    match calculate_four_candle_analysis candles with
    | Except.error e => Except.error e
    | Except.ok (changes, is_red) =>
      let total_gain := changes.sum
      let last_not_red := !(is_red.getD 3 false)
      Except.ok (decide (total_gain ≥ 0.8) && last_not_red)
  else Except.ok false

/-- Sequencing of one should_buy filter gate: a failed filter returns False
from should_buy, a passing filter falls through to the rest, a raise
propagates. -/
def gateFilter (g rest : Except Unit Bool) : Except Unit Bool :=
  match g with
  | Except.error e => Except.error e
  | Except.ok false => Except.ok false
  | Except.ok true => rest

/-- Sequencing of one should_buy momentum condition: a firing condition
returns True from should_buy, a silent one falls through, a raise
propagates. -/
def orSignal (s rest : Except Unit Bool) : Except Unit Bool :=
  match s with
  | Except.error e => Except.error e
  | Except.ok true => Except.ok true
  | Except.ok false => rest

/-- strategy.py, should_buy try-block body: early return False on fewer
than 3 candles, then filters A to D in order, then the two-candle and
four-candle momentum conditions in order, else False. An Except.error is
an uncaught exception inside the try block. -/
def shouldBuyBody (candles : List Candle) : Except Unit Bool :=
  if candles.length < 3 then Except.ok false
  else
    gateFilter (volatilityFilter candles)
      (gateFilter (volumeFilter candles)
        (gateFilter (distanceFilter candles)
          (gateFilter (m5Filter candles)
            (orSignal (twoCandleSignal candles)
              (orSignal (fourCandleSignal candles) (Except.ok false))))))

/-- strategy.py, should_buy: the try/except wrapper maps any exception in
the body to the return value False. -/
def should_buy (candles : List Candle) : Bool :=
  match shouldBuyBody candles with
  | Except.ok b => b
  | Except.error _ => false

/-- strategy.py, should_sell: hard stop-loss when profit_now ≤
−MAX_LOSS_PERCENT, else trailing stop when peak_price > buy_price and the
drawdown from the peak price is ≥ 0.002 (0.20% of the peak price). All
divisions reached have nonzero denominators (buy_price > 0 past the guard,
and peak_price > buy_price > 0 in the trailing branch), so total rational
division is faithful here. -/
def should_sell (current_price buy_price peak_price : ℚ) : Bool × String :=
  if buy_price ≤ 0 then (false, "")
  else
    let profit_now := (current_price - buy_price) / buy_price
    if profit_now ≤ -MAX_LOSS_PERCENT then (true, "STOP_LOSS")
    else if peak_price > buy_price then
      let drawdown_from_peak := (peak_price - current_price) / peak_price
      if drawdown_from_peak ≥ 0.002 then (true, "TRAILING_STOP")
      else (false, "")
    else (false, "")

/-! ## main.py: position state machine and control loop

External collaborators (exchange, Telegram) are modelled by their responses
for one call: `Except.error ()` stands for a raised exception, `Except.ok`
for a normal return. Wall-clock readings of time.time() are inputs. -/

/-- main.py lines 284-289: the peak-price update while holding — the peak
is replaced by the observed price exactly when the price exceeds it. -/
def update_peak (peak_price current_price : ℚ) : ℚ :=
  if current_price > peak_price then current_price else peak_price

/-- One fill record of an order (price and quantity). -/
structure Fill where
  price : ℚ
  qty : ℚ
  deriving DecidableEq

/-- An executed order as read by main.py: its fills and executedQty. -/
structure Order where
  fills : List Fill
  executedQty : ℚ
  deriving DecidableEq

/-- main.py lines 220-229 (and 308-319): quantity-weighted average price
over the fills of an order, falling back to the observed market price when
there are no fills or the total quantity is not positive. -/
def fillAveragePrice (fills : List Fill) (fallback : ℚ) : ℚ :=
  match fills with
  | [] => fallback
  | _ =>
    let total_qty := (fills.map Fill.qty).sum
    let total_cost := (fills.map (fun f => f.price * f.qty)).sum
    if total_qty > 0 then total_cost / total_qty else fallback

/-- The startup-relevant part of the persisted state dict: the
FIRST_RUN_SELL_DONE flag (absent = false). -/
structure StartupState where
  first_run_sell_done : Bool
  deriving DecidableEq

/-- main.py, startup_sell_if_needed. Inputs are the responses of the two
exchange calls: balanceResp for get_balance("SOL"), sellResp for
market_sell_all_sol (ok none = insufficient-balance return of None). The
Bool output records whether the liquidation call was made. A raised
exception is caught by the outer try and leaves the flag untouched; the
Telegram notification after a successful sell cannot unset the flag (the
flag is stored and saved before the notification attempt). -/
def startup_sell_if_needed (balanceResp : Except Unit ℚ)
    (sellResp : Except Unit (Option Order)) (st : StartupState) :
    StartupState × Bool :=
  if st.first_run_sell_done then (st, false)
  else
    match balanceResp with
    | Except.error _ => (st, false)
    | Except.ok sol_balance =>
      if sol_balance > 0 then
        match sellResp with
        | Except.error _ => (st, true)
        | Except.ok none => (st, true)
        | Except.ok (some _) => ({ st with first_run_sell_done := true }, true)
      else ({ st with first_run_sell_done := true }, false)

/-- The mutable variables of main_loop that persist across iterations. -/
structure LoopState where
  holding : Bool
  buy_price : ℚ
  peak_price : ℚ
  last_candle_time : Option Int
  last_activity_ts : ℚ
  watchdog_alert_sent : Bool
  deriving DecidableEq

/-- The external world of one loop iteration: the response of each call the
iteration may make, the time.time() readings at the activity reset (tFetch)
and at the watchdog check (tCheck), and whether the watchdog Telegram call
returns without raising (notifyOk). -/
structure IterInput where
  klines : Except Unit (List Candle)
  price : Except Unit ℚ
  usdcBalance : Except Unit ℚ
  solBalance : Except Unit ℚ
  buyOrder : Except Unit (Option Order)
  sellOrder : Except Unit (Option Order)
  tFetch : ℚ
  tCheck : ℚ
  notifyOk : Bool

/-- How an iteration of the holding branch classified its outcome in the
logs: a normal exit (sell order filled), a detected desync (sell signal
with zero SOL balance), or no exit. -/
inductive ExitEvent where
  | noExit
  | normalExit
  | desync
  deriving DecidableEq

/-- The observable log facts of one iteration body. -/
structure BodyLog where
  sellOrderPlaced : Bool
  exitEvent : ExitEvent
  deriving DecidableEq

/-- Outcome of the try-block body of one iteration: an unhandled fault
(jumps to the except handler, skipping the watchdog check), an early
continue (fewer than 3 candles, also skipping the check), or normal
completion (falls through to the watchdog check). The carried state is the
value of the loop variables at that point. -/
inductive BodyOut where
  | faulted (st : LoopState)
  | skipped (st : LoopState)
  | done (st : LoopState) (log : BodyLog)
  deriving DecidableEq

/-- The loop-variable state carried by a body outcome. -/
def BodyOut.state : BodyOut → LoopState
  | BodyOut.faulted st => st
  | BodyOut.skipped st => st
  | BodyOut.done st _ => st

/-- main.py lines 187-272: the not-holding branch. Fetch klines (a raise
faults the iteration); on success reset the liveness timestamp and clear
the watchdog latch; skip on fewer than 3 candles; debounce on the open
time of the newest candle; evaluate should_buy; on a signal check the USDC
balance, fetch the price, place the market buy, and on a filled order set
holding with entry = peak = quantity-weighted average fill price. -/
def notHoldingBody (inp : IterInput) (st : LoopState) : BodyOut :=
  match inp.klines with
  | Except.error _ => BodyOut.faulted st
  | Except.ok klines =>
    let st1 : LoopState :=
      { st with last_activity_ts := inp.tFetch, watchdog_alert_sent := false }
    if klines.length < 3 then BodyOut.skipped st1
    else
      match klines.getLast? with
      | none => BodyOut.faulted st1
      | some lastK =>
        if st1.last_candle_time = some lastK.openTime then
          BodyOut.done st1 ⟨false, ExitEvent.noExit⟩
        else
          let st2 := { st1 with last_candle_time := some lastK.openTime }
          if should_buy klines then
            match inp.usdcBalance with
            | Except.error _ => BodyOut.faulted st2
            | Except.ok usdc =>
              if usdc > 0 then
                match inp.price with
                | Except.error _ => BodyOut.faulted st2
                | Except.ok current_price =>
                  match inp.buyOrder with
                  | Except.error _ => BodyOut.faulted st2
                  | Except.ok none => BodyOut.done st2 ⟨false, ExitEvent.noExit⟩
                  | Except.ok (some order) =>
                    let actual := fillAveragePrice order.fills current_price
                    BodyOut.done
                      { st2 with
                          holding := true
                          buy_price := actual
                          peak_price := actual }
                      ⟨false, ExitEvent.noExit⟩
              else BodyOut.done st2 ⟨false, ExitEvent.noExit⟩
          else BodyOut.done st2 ⟨false, ExitEvent.noExit⟩

/-- main.py lines 274-396: the holding branch. Fetch the price (a raise
faults the iteration); on success reset liveness and clear the latch;
update the peak; evaluate should_sell on the updated peak; on a signal
check the SOL balance: positive balance leads to a market sell and, on a
filled order, a reset to flat (normal exit); zero balance is the desync
path — reset to flat with no sell order placed. -/
def holdingBody (inp : IterInput) (st : LoopState) : BodyOut :=
  match inp.price with
  | Except.error _ => BodyOut.faulted st
  | Except.ok current_price =>
    let st1 : LoopState :=
      { st with last_activity_ts := inp.tFetch, watchdog_alert_sent := false }
    let st2 : LoopState :=
      { st1 with peak_price := update_peak st1.peak_price current_price }
    if (should_sell current_price st2.buy_price st2.peak_price).1 then
      match inp.solBalance with
      | Except.error _ => BodyOut.faulted st2
      | Except.ok sol =>
        if sol > 0 then
          match inp.sellOrder with
          | Except.error _ => BodyOut.faulted st2
          | Except.ok none => BodyOut.done st2 ⟨true, ExitEvent.noExit⟩
          | Except.ok (some _) =>
            BodyOut.done
              { st2 with holding := false, buy_price := 0, peak_price := 0 }
              ⟨true, ExitEvent.normalExit⟩
        else
          BodyOut.done
            { st2 with holding := false, buy_price := 0, peak_price := 0 }
            ⟨false, ExitEvent.desync⟩
    else BodyOut.done st2 ⟨false, ExitEvent.noExit⟩

/-- The try-block body of one main_loop iteration: dispatch on holding. -/
def bodyStep (inp : IterInput) (st : LoopState) : BodyOut :=
  if st.holding then holdingBody inp st else notHoldingBody inp st

/-- main.py lines 398-412: the watchdog check. When the minutes since the
last liveness reset reach WATCHDOG_MINUTES and the latch is clear, the
alert is sent (the local try/except means a raising Telegram call leaves
the latch clear for a retry; a call that returns — even returning False —
latches it). Returns the updated state and whether the alert call
completed. -/
def watchdogStep (tCheck : ℚ) (notifyOk : Bool) (st : LoopState) :
    LoopState × Bool :=
  let minutes_inactive := (tCheck - st.last_activity_ts) / 60
  if minutes_inactive ≥ WATCHDOG_MINUTES ∧ st.watchdog_alert_sent = false then
    if notifyOk then ({ st with watchdog_alert_sent := true }, true)
    else (st, false)
  else (st, false)

/-- The observable log facts of one full iteration. -/
structure StepLog where
  watchdogChecked : Bool
  alertSent : Bool
  sellOrderPlaced : Bool
  exitEvent : ExitEvent
  deriving DecidableEq

/-- One full main_loop iteration: the try-block body, then — only when the
body completed normally — the watchdog check. A faulted body jumps to the
except handler and a skipped body continues early; both bypass the
watchdog check. -/
def step (inp : IterInput) (st : LoopState) : LoopState × StepLog :=
  match bodyStep inp st with
  | BodyOut.faulted st1 => (st1, ⟨false, false, false, ExitEvent.noExit⟩)
  | BodyOut.skipped st1 => (st1, ⟨false, false, false, ExitEvent.noExit⟩)
  | BodyOut.done st1 log =>
    let w := watchdogStep inp.tCheck inp.notifyOk st1
    (w.1, ⟨true, w.2, log.sellOrderPlaced, log.exitEvent⟩)

/-- The position-state invariant of the loop variables: flat means zeroed
entry and peak, holding means a positive entry and a peak at or above
it. -/
def Inv (st : LoopState) : Prop :=
  (st.holding = false → st.buy_price = 0 ∧ st.peak_price = 0) ∧
  (st.holding = true → 0 < st.buy_price ∧ st.buy_price ≤ st.peak_price)

/-- Environment assumptions for one iteration, from the collaborator
contracts: a returned market price is positive, and the fills of a filled
buy order carry positive prices and positive quantities. -/
def GoodInput (inp : IterInput) : Prop :=
  (∀ p, inp.price = Except.ok p → 0 < p) ∧
  (∀ o, inp.buyOrder = Except.ok (some o) →
    ∀ f ∈ o.fills, 0 < f.price ∧ 0 < f.qty)

/-- States reachable by main_loop iterations from a flat initial state,
under the environment assumptions of GoodInput. -/
inductive Reachable : LoopState → Prop where
  | init (st : LoopState) (h1 : st.holding = false) (h2 : st.buy_price = 0)
      (h3 : st.peak_price = 0) : Reachable st
  | next (st : LoopState) (inp : IterInput) (hst : Reachable st)
      (hinp : GoodInput inp) : Reachable (step inp st).1

/-- A concrete flat loop state (fresh start). -/
def sampleFlatState : LoopState := ⟨false, 0, 0, none, 0, false⟩

/-- A concrete holding loop state: entry 50, peak 50. -/
def sampleOpenState : LoopState := ⟨true, 50, 50, none, 0, false⟩

/-- An iteration input whose market-data fetch raises, one hour (3600 s)
after the last liveness reset. -/
def sampleStallInput : IterInput :=
  ⟨Except.error (), Except.error (), Except.ok 0, Except.ok 0,
   Except.ok none, Except.ok none, 0, 3600, true⟩

/-- An iteration input for the holding branch: the price fetch returns 45
and the exchange reports a SOL balance of 0. -/
def sampleDesyncInput : IterInput :=
  ⟨Except.ok [], Except.ok 45, Except.ok 0, Except.ok 0,
   Except.ok none, Except.ok none, 0, 0, true⟩

/-- An iteration input with a quiet 3-candle window (no buy signal), a
liveness reset at t = 10 and a watchdog check one hour later. -/
def sampleQuietInput : IterInput :=
  ⟨Except.ok [⟨0, 1, 1, 1, 1, 1⟩, ⟨1, 1, 1, 1, 1, 1⟩, ⟨2, 1, 1, 1, 1, 1⟩],
   Except.error (), Except.ok 0, Except.ok 0, Except.ok none,
   Except.ok none, 10, 3610, true⟩

/-! ## Helper lemmas -/

/-- The peak never decreases under one update. -/
lemma le_update_peak (peak_price current_price : ℚ) :
    peak_price ≤ update_peak peak_price current_price := by
  unfold update_peak
  split_ifs with h
  · linarith
  · exact le_refl _

/-- The watchdog check never touches the position fields or the liveness
timestamp. -/
lemma watchdogStep_preserves (t : ℚ) (n : Bool) (s : LoopState) :
    (watchdogStep t n s).1.holding = s.holding ∧
    (watchdogStep t n s).1.buy_price = s.buy_price ∧
    (watchdogStep t n s).1.peak_price = s.peak_price ∧
    (watchdogStep t n s).1.last_activity_ts = s.last_activity_ts := by
  unfold watchdogStep
  by_cases hc : WATCHDOG_MINUTES ≤ (t - s.last_activity_ts) / 60 ∧
      s.watchdog_alert_sent = false
  · by_cases hn : n = true <;> simp [hc, hn]
  · simp [hc]

/-! ## Claim theorems -/

/-- Claim C1, counterexample. The claim predicts that with entry = 100 and
peak = 110 the exit evaluation does NOT signal at current = 108.01
(the fraction of peak profit given back there is 0.199 < 0.20), and that a
trailing exit carries the tag TRAILING_TAKE_PROFIT. The code signals
(true, TRAILING_STOP) at 108.01: its trailing rule compares the drawdown
from the peak PRICE, (peak − current)/peak, against 0.002, not the share
of peak profit against 0.20. -/
theorem trailing_take_profit_claim_cex :
    should_sell (108.01 : ℚ) 100 110 = (true, "TRAILING_STOP") ∧
    (((110 : ℚ) - 100) / 100 - ((108.01 : ℚ) - 100) / 100) /
      (((110 : ℚ) - 100) / 100) < 0.20 ∧
    (should_sell (108.01 : ℚ) 100 110).2 ≠ "TRAILING_TAKE_PROFIT" := by
  have h : should_sell (108.01 : ℚ) 100 110 = (true, "TRAILING_STOP") := by
    norm_num [should_sell, MAX_LOSS_PERCENT]
  refine ⟨h, by norm_num, ?_⟩
  rw [h]
  decide

/-- Claim C1, amended: with a positive entry price, a peak strictly above
the entry, and the current profit strictly above the stop-loss floor, the
exit evaluation returns (true, TRAILING_STOP) exactly when the drawdown
from the peak price, (peak − current)/peak, is at least 0.002 (0.20% of
the peak price). With entry 100 and peak 110 it therefore signals at every
current price ≤ 109.78, in particular at both 107.99 and 108.01. -/
theorem should_sell_trailing_stop_iff (current_price buy_price peak_price : ℚ)
    (hb : 0 < buy_price) (hpk : buy_price < peak_price)
    (hnl : -MAX_LOSS_PERCENT < (current_price - buy_price) / buy_price) :
    should_sell current_price buy_price peak_price = (true, "TRAILING_STOP")
      ↔ (0.002 : ℚ) ≤ (peak_price - current_price) / peak_price := by
  have h1 : ¬ buy_price ≤ 0 := not_le.mpr hb
  have h2 : ¬ (current_price - buy_price) / buy_price ≤ -MAX_LOSS_PERCENT :=
    not_le.mpr hnl
  simp only [should_sell, if_neg h1, if_neg h2, if_pos hpk, ge_iff_le]
  split_ifs with h3 <;> simp [h3]

/-- Claim C1, witness at the scenario point current = 107.99. -/
theorem should_sell_trailing_stop_iff_witness :
    should_sell (107.99 : ℚ) 100 110 = (true, "TRAILING_STOP") :=
  (should_sell_trailing_stop_iff 107.99 100 110 (by norm_num) (by norm_num)
    (by norm_num [MAX_LOSS_PERCENT])).mpr (by norm_num)

/-- Claim C2: whenever the entry price is positive and the current price
is at or below entry × (1 − MAX_LOSS_PERCENT), the exit evaluation returns
(true, STOP_LOSS) for every peak price — the stop-loss check runs first,
so it wins even when the trailing condition would also hold. -/
theorem should_sell_stop_loss_first (current_price buy_price peak_price : ℚ)
    (hb : 0 < buy_price)
    (hc : current_price ≤ buy_price * (1 - MAX_LOSS_PERCENT)) :
    should_sell current_price buy_price peak_price = (true, "STOP_LOSS") := by
  have h1 : ¬ buy_price ≤ 0 := not_le.mpr hb
  have h2 : (current_price - buy_price) / buy_price ≤ -MAX_LOSS_PERCENT := by
    rw [div_le_iff₀ hb]
    unfold MAX_LOSS_PERCENT at hc ⊢
    nlinarith
  simp only [should_sell, if_neg h1, if_pos h2]

/-- Claim C2, witness: entry 100, current 99, peak 110 — the trailing
condition also holds there, yet STOP_LOSS is returned. -/
theorem should_sell_stop_loss_first_witness :
    should_sell (99 : ℚ) 100 110 = (true, "STOP_LOSS") :=
  should_sell_stop_loss_first 99 100 110 (by norm_num)
    (by norm_num [MAX_LOSS_PERCENT])

/-- Claim C6: the peak-price update is idempotent in the observed price
and monotone — applying it twice with the same price equals applying it
once, and the peak never decreases. -/
theorem update_peak_idempotent_monotone (peak_price current_price : ℚ) :
    update_peak (update_peak peak_price current_price) current_price =
      update_peak peak_price current_price ∧
    peak_price ≤ update_peak peak_price current_price := by
  refine ⟨?_, le_update_peak _ _⟩
  unfold update_peak
  split_ifs <;> linarith

/-- Claim C7: the startup-sell protocol. (1) With the completion flag
already set, the state is returned unchanged and no liquidation call is
made, whatever the balance. (2) A failing balance fetch leaves everything
unchanged. (3) With a positive balance, a liquidation that raises or
returns None leaves the flag unset. (4) With a positive balance and a
filled liquidation order, the flag is set. (5) With a non-positive
balance, the flag is set without any liquidation call. -/
theorem startup_sell_flag_protocol (balanceResp : Except Unit ℚ)
    (sellResp : Except Unit (Option Order)) (st : StartupState) :
    (st.first_run_sell_done = true →
      startup_sell_if_needed balanceResp sellResp st = (st, false)) ∧
    (st.first_run_sell_done = false → balanceResp = Except.error () →
      startup_sell_if_needed balanceResp sellResp st = (st, false)) ∧
    (st.first_run_sell_done = false → ∀ bal, balanceResp = Except.ok bal →
      0 < bal → (sellResp = Except.error () ∨ sellResp = Except.ok none) →
      (startup_sell_if_needed balanceResp sellResp st).1.first_run_sell_done
        = false) ∧
    (st.first_run_sell_done = false → ∀ bal, balanceResp = Except.ok bal →
      0 < bal → ∀ o, sellResp = Except.ok (some o) →
      (startup_sell_if_needed balanceResp sellResp st).1.first_run_sell_done
        = true ∧
      (startup_sell_if_needed balanceResp sellResp st).2 = true) ∧
    (st.first_run_sell_done = false → ∀ bal, balanceResp = Except.ok bal →
      bal ≤ 0 →
      startup_sell_if_needed balanceResp sellResp st =
        ({ st with first_run_sell_done := true }, false)) := by
  refine ⟨?_, ?_, ?_, ?_, ?_⟩
  · intro h
    simp [startup_sell_if_needed, h]
  · intro h hb
    simp [startup_sell_if_needed, h, hb]
  · intro h bal hb hpos hor
    rcases hor with h' | h' <;>
      simp [startup_sell_if_needed, h, hb, h', hpos, if_pos hpos]
  · intro h bal hb hpos o h'
    simp [startup_sell_if_needed, h, hb, h', hpos, if_pos hpos]
  · intro h bal hb hneg
    simp [startup_sell_if_needed, h, hb, if_neg (not_lt.mpr hneg)]

/-- Claim C7, witness at the spec scenario: flag unset, balance 3.2, sell
order filled — afterwards the flag is set. -/
theorem startup_sell_flag_protocol_witness :
    (startup_sell_if_needed (Except.ok (3.2 : ℚ))
      (Except.ok (some ⟨[], 3.2⟩)) ⟨false⟩).1.first_run_sell_done = true :=
  ((startup_sell_flag_protocol (Except.ok (3.2 : ℚ))
      (Except.ok (some ⟨[], 3.2⟩)) ⟨false⟩).2.2.2.1 rfl 3.2 rfl
    (by norm_num) ⟨[], 3.2⟩ rfl).1

/-- Claim C4, counterexample: a 3-candle window whose two most recent
candles both close BELOW their own opens (per-candle change ≤ 0), yet the
two-candle rule fires and the entry evaluation returns true — the code
computes close-to-close moves (r1 from close 100 to 100.3, r2 from 100.3
to 100.7), not per-candle open-to-close greenness. -/
theorem two_candle_red_candles_fire_cex :
    (((100.3 : ℚ) - 100.5) / 100.5 ≤ 0) ∧
    (((100.7 : ℚ) - 100.9) / 100.9 ≤ 0) ∧
    twoCandleSignal [⟨0, 100, 100, 100, 100, 1⟩,
      ⟨1, 100.5, 100.5, 100.3, 100.3, 1⟩,
      ⟨2, 100.9, 100.9, 100.7, 100.7, 1⟩] = Except.ok true ∧
    should_buy [⟨0, 100, 100, 100, 100, 1⟩,
      ⟨1, 100.5, 100.5, 100.3, 100.3, 1⟩,
      ⟨2, 100.9, 100.9, 100.7, 100.7, 1⟩] = true := by
  refine ⟨by norm_num, by norm_num, ?_, ?_⟩
  · norm_num [twoCandleSignal, calculate_candle_changes, pydiv]
  · norm_num [should_buy, shouldBuyBody, volatilityFilter, volumeFilter,
      distanceFilter, m5Filter, twoCandleSignal, fourCandleSignal, lastN,
      volLoop, candleVol, calculate_candle_changes, pydiv, gateFilter,
      orSignal, pyLast]

/-- Claim C4, amended: with non-positive moves read as the code computes
them — the close-to-close changes r1 and r2 of the first three candles of
the window — the two-candle rule never fires when both are non-positive
(it needs r1 ≥ 0.20 and r2 ≥ 0.30, both positive). -/
theorem two_candle_nonpositive_moves_silent (candles : List Candle)
    (r1 r2 : ℚ) (hc : calculate_candle_changes candles = Except.ok (r1, r2))
    (h1 : r1 ≤ 0) (h2 : r2 ≤ 0) :
    twoCandleSignal candles = Except.ok false := by
  have hr1 : ¬ ((0.20 : ℚ) ≤ r1) := by
    intro h
    have h020 : (0 : ℚ) < 0.20 := by norm_num
    linarith
  rcases candles with _ | ⟨c0, _ | ⟨c1, _ | ⟨c2, rest⟩⟩⟩ <;>
    simp only [calculate_candle_changes] at hc
  · exact absurd hc (by simp)
  · exact absurd hc (by simp)
  · exact absurd hc (by simp)
  · unfold twoCandleSignal
    rw [if_pos (by simp)]
    rw [show calculate_candle_changes (c0 :: c1 :: c2 :: rest)
        = Except.ok (r1, r2) from by simp only [calculate_candle_changes]; exact hc]
    simp [ge_iff_le, hr1]

/-- Claim C4, witness: a window with strictly falling closes. -/
theorem two_candle_nonpositive_moves_silent_witness :
    twoCandleSignal [⟨0, 100, 100, 100, 100, 1⟩, ⟨1, 99, 100, 99, 99, 1⟩,
      ⟨2, 98, 99, 98, 98, 1⟩] = Except.ok false :=
  two_candle_nonpositive_moves_silent _ (-1) (-100/99)
    (by norm_num [calculate_candle_changes, pydiv]) (by norm_num)
    (by norm_num)

/-- Claim C3, counterexample: a 4-candle window that satisfies every part
of the claimed four-candle rule — the sum of the four per-candle changes,
3/10 + 300/1003 + 150/503 + 300/1009 ≈ 1.19, is at or above the 0.8
threshold of the code (hence also 0.7), no candle is red so at most one is
red and the last two are not both red — yet the entry evaluation returns
false, because the fourth candle has range (101.9 − 100.2)/100.9 ≈ 1.7% >
0.6% and the volatility filter rejects the window before any momentum
rule is consulted. The four-candle rule alone is NOT sufficient. -/
theorem four_candle_alone_insufficient_cex :
    calculate_four_candle_analysis [⟨0, 100, 100.3, 100, 100.3, 1⟩,
      ⟨1, 100.3, 100.6, 100.3, 100.6, 1⟩,
      ⟨2, 100.6, 100.9, 100.6, 100.9, 1⟩,
      ⟨3, 100.9, 101.9, 100.2, 101.2, 1⟩]
      = Except.ok ([3/10, 300/1003, 150/503, 300/1009],
          [false, false, false, false]) ∧
    ((3 : ℚ)/10 + 300/1003 + 150/503 + 300/1009 ≥ 0.8) ∧
    fourCandleSignal [⟨0, 100, 100.3, 100, 100.3, 1⟩,
      ⟨1, 100.3, 100.6, 100.3, 100.6, 1⟩,
      ⟨2, 100.6, 100.9, 100.6, 100.9, 1⟩,
      ⟨3, 100.9, 101.9, 100.2, 101.2, 1⟩] = Except.ok true ∧
    should_buy [⟨0, 100, 100.3, 100, 100.3, 1⟩,
      ⟨1, 100.3, 100.6, 100.3, 100.6, 1⟩,
      ⟨2, 100.6, 100.9, 100.6, 100.9, 1⟩,
      ⟨3, 100.9, 101.9, 100.2, 101.2, 1⟩] = false := by
  refine ⟨?_, by norm_num, ?_, ?_⟩
  · norm_num [calculate_four_candle_analysis, candleChange, pydiv]
  · norm_num [fourCandleSignal, calculate_four_candle_analysis,
      candleChange, pydiv]
  · norm_num [should_buy, shouldBuyBody, volatilityFilter, lastN, volLoop,
      candleVol, pydiv, gateFilter]

/-- Claim C3, amended: the four-candle momentum condition (as the code
evaluates it: sum of the per-candle changes of the first four candles
≥ 0.8 and the fourth candle not red) makes the entry evaluation return
true only TOGETHER with the gating filters: whenever all four filters pass
and the two-candle computation does not raise, a firing four-candle
condition yields should_buy = true. -/
theorem four_candle_with_filters_buys (candles : List Candle)
    (h4 : 4 ≤ candles.length)
    (hA : volatilityFilter candles = Except.ok true)
    (hB : volumeFilter candles = Except.ok true)
    (hC : distanceFilter candles = Except.ok true)
    (hD : m5Filter candles = Except.ok true)
    (h2 : twoCandleSignal candles ≠ Except.error ())
    (hf : fourCandleSignal candles = Except.ok true) :
    should_buy candles = true := by
  have h3 : ¬ (candles.length < 3) := by omega
  have hbody : shouldBuyBody candles = Except.ok true := by
    unfold shouldBuyBody
    rw [if_neg h3, hA, hB, hC, hD]
    simp only [gateFilter]
    rcases htwo : twoCandleSignal candles with e | b
    · cases e
      exact absurd htwo h2
    · cases b
      · simp only [orSignal]
        rw [hf]
      · rfl
  simp [should_buy, hbody]

/-- Claim C3, witness: the same window with a calm fourth candle (range
within 0.6%) passes all filters, and the four-candle condition alone then
produces the entry signal. -/
theorem four_candle_with_filters_buys_witness :
    should_buy [⟨0, 100, 100.3, 100, 100.3, 1⟩,
      ⟨1, 100.3, 100.6, 100.3, 100.6, 1⟩,
      ⟨2, 100.6, 100.9, 100.6, 100.9, 1⟩,
      ⟨3, 100.9, 101.2, 100.9, 101.2, 1⟩] = true :=
  four_candle_with_filters_buys _ (by norm_num)
    (by norm_num [volatilityFilter, lastN, volLoop, candleVol, pydiv])
    (by norm_num [volumeFilter])
    (by norm_num [distanceFilter])
    (by norm_num [m5Filter])
    (by
      intro h
      norm_num [twoCandleSignal, calculate_candle_changes, pydiv] at h
      exact Except.noConfusion h)
    (by norm_num [fourCandleSignal, calculate_four_candle_analysis,
      candleChange, pydiv])

/-- Any list containing a candle with a zero open makes the volatility
loop either raise (ZeroDivisionError) or reject: it can never pass. -/
lemma volLoop_zero_open (l : List Candle) (c : Candle) (hc : c ∈ l)
    (h0 : c.openPrice = 0) :
    volLoop l = Except.error () ∨ volLoop l = Except.ok false := by
  induction l with
  | nil => cases hc
  | cons d rest ih =>
    rcases List.mem_cons.mp hc with rfl | hc'
    · left
      simp [volLoop, candleVol, pydiv, h0]
    · rcases hv : candleVol d with e | vol
      · left
        cases e
        simp [volLoop, hv]
      · simp only [volLoop, hv]
        split_ifs with hgt
        · right
          rfl
        · exact ih hc'

/-- Claim C5: the entry evaluation is total and fails safe. Any exception
raised inside the try block (in particular a ZeroDivisionError from a
percentage-change computation) is caught and becomes the definite value
false; concretely, a zero open price among the three most recent candles
always yields should_buy = false (the volatility loop either raises —
mapped to false — or rejects the window first). -/
theorem should_buy_division_fault_safe (candles : List Candle) :
    (∀ e, shouldBuyBody candles = Except.error e →
      should_buy candles = false) ∧
    (∀ c, 3 ≤ candles.length → c ∈ lastN 3 candles → c.openPrice = 0 →
      should_buy candles = false) := by
  constructor
  · intro e h
    simp [should_buy, h]
  · intro c hlen hmem hopen
    have h3 : ¬ (candles.length < 3) := by omega
    have hvol := volLoop_zero_open (lastN 3 candles) c hmem hopen
    unfold should_buy shouldBuyBody volatilityFilter
    rw [if_neg h3]
    rcases hvol with h | h <;> rw [h] <;> rfl

/-- Claim C5, witness: a window whose newest candle has open price 0. -/
theorem should_buy_division_fault_safe_witness :
    should_buy [⟨0, 1, 1, 1, 1, 1⟩, ⟨1, 1, 1, 1, 1, 1⟩,
      ⟨2, 0, 1, 0, 1, 1⟩] = false :=
  (should_buy_division_fault_safe _).2 ⟨2, 0, 1, 0, 1, 1⟩ (by norm_num)
    (by simp [lastN]) (by norm_num)

/-- Claim C8: whenever the loop holds a position, the exit evaluation (on
the updated peak) fires, and the exchange reports a SOL balance of 0, the
iteration forces the state to flat — holding false, entry and peak reset
to 0 — places no sell order, and records the desync event, which is a
different event from a normal exit. -/
theorem desync_forced_flat (inp : IterInput) (st : LoopState) (p : ℚ)
    (hh : st.holding = true)
    (hp : inp.price = Except.ok p)
    (hsig : (should_sell p st.buy_price (update_peak st.peak_price p)).1
      = true)
    (hsol : inp.solBalance = Except.ok 0) :
    (step inp st).1.holding = false ∧
    (step inp st).1.buy_price = 0 ∧
    (step inp st).1.peak_price = 0 ∧
    (step inp st).2.sellOrderPlaced = false ∧
    (step inp st).2.exitEvent = ExitEvent.desync ∧
    ExitEvent.desync ≠ ExitEvent.normalExit := by
  have hbody : bodyStep inp st =
      BodyOut.done
        { holding := false, buy_price := 0, peak_price := 0,
          last_candle_time := st.last_candle_time,
          last_activity_ts := inp.tFetch, watchdog_alert_sent := false }
        ⟨false, ExitEvent.desync⟩ := by
    simp [bodyStep, holdingBody, hh, hp, hsig, hsol]
  obtain ⟨wh, wb, wp, _⟩ := watchdogStep_preserves inp.tCheck inp.notifyOk
    { holding := false, buy_price := 0, peak_price := 0,
      last_candle_time := st.last_candle_time,
      last_activity_ts := inp.tFetch, watchdog_alert_sent := false }
  simp only [step, hbody]
  exact ⟨by rw [wh], by rw [wb], by rw [wp], trivial, trivial, by simp⟩

/-- Claim C8, witness at the spec scenario: entry 50, a stop-loss exit
signal at price 45, SOL balance 0. -/
theorem desync_forced_flat_witness :
    (step sampleDesyncInput sampleOpenState).1.holding = false ∧
    (step sampleDesyncInput sampleOpenState).1.buy_price = 0 ∧
    (step sampleDesyncInput sampleOpenState).1.peak_price = 0 ∧
    (step sampleDesyncInput sampleOpenState).2.sellOrderPlaced = false ∧
    (step sampleDesyncInput sampleOpenState).2.exitEvent
      = ExitEvent.desync ∧
    ExitEvent.desync ≠ ExitEvent.normalExit :=
  desync_forced_flat sampleDesyncInput sampleOpenState 45 rfl rfl
    (by norm_num [should_sell, update_peak, MAX_LOSS_PERCENT,
      sampleOpenState]) rfl

/-- Every completed iteration body has just refreshed liveness: its state
carries a cleared watchdog latch and the fetch-time liveness timestamp. -/
lemma bodyStep_done_props (inp : IterInput) (st s1 : LoopState)
    (log : BodyLog) (h : bodyStep inp st = BodyOut.done s1 log) :
    s1.watchdog_alert_sent = false ∧ s1.last_activity_ts = inp.tFetch := by
  unfold bodyStep at h
  split at h
  · unfold holdingBody at h
    rcases hp : inp.price with e | p <;> simp only [hp] at h
    · exact BodyOut.noConfusion h
    · split at h
      · rcases hs : inp.solBalance with e2 | sol <;> simp only [hs] at h
        · exact BodyOut.noConfusion h
        · split at h
          · rcases ho : inp.sellOrder with e3 | oo <;> simp only [ho] at h
            · exact BodyOut.noConfusion h
            · rcases oo with _ | o <;> simp only at h
              · cases h
                exact ⟨rfl, rfl⟩
              · cases h
                exact ⟨rfl, rfl⟩
          · cases h
            exact ⟨rfl, rfl⟩
      · cases h
        exact ⟨rfl, rfl⟩
  · unfold notHoldingBody at h
    rcases hk : inp.klines with e | ks <;> simp only [hk] at h
    · exact BodyOut.noConfusion h
    · split at h
      · exact BodyOut.noConfusion h
      · rcases hl : ks.getLast? with _ | lastK <;> simp only [hl] at h
        · exact BodyOut.noConfusion h
        · split at h
          · cases h
            exact ⟨rfl, rfl⟩
          · split at h
            · rcases hu : inp.usdcBalance with e2 | usdc <;>
                simp only [hu] at h
              · exact BodyOut.noConfusion h
              · split at h
                · rcases hpr : inp.price with e3 | p <;>
                    simp only [hpr] at h
                  · exact BodyOut.noConfusion h
                  · rcases hb : inp.buyOrder with e4 | ob <;>
                      simp only [hb] at h
                    · exact BodyOut.noConfusion h
                    · rcases ob with _ | o <;> simp only at h
                      · cases h
                        exact ⟨rfl, rfl⟩
                      · cases h
                        exact ⟨rfl, rfl⟩
                · cases h
                  exact ⟨rfl, rfl⟩
            · cases h
              exact ⟨rfl, rfl⟩

/-- Claim C9, counterexample. At this input the market-data fetch raises;
one hour has passed since the last liveness reset (60 min ≥
WATCHDOG_MINUTES = 15) and no alert has been sent for the episode, so the
claim requires the check to run and exactly one alert to be sent. The
code jumps to the except handler, which skips the watchdog check: no
alert is sent and the latch stays unset. -/
theorem watchdog_skipped_on_fetch_failure_cex :
    ((3600 : ℚ) - 0) / 60 ≥ WATCHDOG_MINUTES ∧
    sampleFlatState.watchdog_alert_sent = false ∧
    sampleStallInput.klines = Except.error () ∧
    (step sampleStallInput sampleFlatState).2.watchdogChecked = false ∧
    (step sampleStallInput sampleFlatState).2.alertSent = false ∧
    (step sampleStallInput sampleFlatState).1.watchdog_alert_sent
      = false := by
  refine ⟨by norm_num [WATCHDOG_MINUTES], rfl, rfl, ?_, ?_, ?_⟩ <;>
    simp [step, bodyStep, notHoldingBody, sampleStallInput, sampleFlatState]

/-- Claim C9, amended: the watchdog check runs exactly on iterations whose
body completes — not on ones whose market-data fetch raises (they jump to
the fault handler) nor on short-window skips. On a completed iteration the
body state has the latch cleared and liveness set to the fetch time; if
the elapsed minutes reach WATCHDOG_MINUTES and the alert call completes,
the alert is sent (exactly one per iteration) and the latch is set; below
the threshold nothing is sent and the latch stays clear. -/
theorem watchdog_latch_behaviour (inp : IterInput) (st : LoopState) :
    (st.holding = false → inp.klines = Except.error () →
      step inp st = (st, ⟨false, false, false, ExitEvent.noExit⟩)) ∧
    (st.holding = true → inp.price = Except.error () →
      step inp st = (st, ⟨false, false, false, ExitEvent.noExit⟩)) ∧
    (∀ s1 log, bodyStep inp st = BodyOut.done s1 log →
      (step inp st).2.watchdogChecked = true ∧
      s1.watchdog_alert_sent = false ∧
      s1.last_activity_ts = inp.tFetch ∧
      ((inp.tCheck - s1.last_activity_ts) / 60 ≥ WATCHDOG_MINUTES →
        inp.notifyOk = true →
        (step inp st).2.alertSent = true ∧
        (step inp st).1.watchdog_alert_sent = true) ∧
      (¬ ((inp.tCheck - s1.last_activity_ts) / 60 ≥ WATCHDOG_MINUTES) →
        (step inp st).2.alertSent = false ∧
        (step inp st).1.watchdog_alert_sent = false)) := by
  refine ⟨?_, ?_, ?_⟩
  · intro hh hk
    simp [step, bodyStep, notHoldingBody, hh, hk]
  · intro hh hp
    simp [step, bodyStep, holdingBody, hh, hp]
  · intro s1 log h
    obtain ⟨hlatch, hts⟩ := bodyStep_done_props inp st s1 log h
    refine ⟨by simp [step, h], hlatch, hts, ?_, ?_⟩
    · intro hthr hn
      constructor <;> simp [step, h, watchdogStep, hthr, hlatch, hn]
    · intro hthr
      constructor <;> simp [step, h, watchdogStep, hthr, hlatch]

/-- Claim C9, witness: a completed quiet iteration whose body took an
hour — the check runs, the alert goes out, the latch is set. -/
theorem watchdog_latch_behaviour_witness :
    (step sampleQuietInput sampleFlatState).2.alertSent = true ∧
    (step sampleQuietInput sampleFlatState).1.watchdog_alert_sent = true :=
  ((watchdog_latch_behaviour sampleQuietInput sampleFlatState).2.2
    ⟨false, 0, 0, some 2, 10, false⟩ ⟨false, ExitEvent.noExit⟩
    (by
      norm_num [bodyStep, notHoldingBody, sampleQuietInput, sampleFlatState,
        should_buy, shouldBuyBody, volatilityFilter, volumeFilter,
        distanceFilter, m5Filter, twoCandleSignal, fourCandleSignal, lastN,
        volLoop, candleVol, calculate_candle_changes, pydiv, gateFilter,
        orSignal, pyLast])).2.2.2.1
    (by norm_num [sampleQuietInput, WATCHDOG_MINUTES]) rfl

/-- A state with holding cleared and zeroed prices satisfies Inv. -/
lemma inv_of_flat (s : LoopState) (h1 : s.holding = false)
    (h2 : s.buy_price = 0) (h3 : s.peak_price = 0) : Inv s :=
  ⟨fun _ => ⟨h2, h3⟩, fun hh => by rw [h1] at hh; exact Bool.noConfusion hh⟩

/-- A holding state with a positive entry below or at the peak satisfies
Inv. -/
lemma inv_of_open (s : LoopState) (h1 : s.holding = true)
    (h2 : 0 < s.buy_price) (h3 : s.buy_price ≤ s.peak_price) : Inv s :=
  ⟨fun hh => by rw [h1] at hh; exact Bool.noConfusion hh, fun _ => ⟨h2, h3⟩⟩

/-- The quantity-weighted average fill price is positive when every fill
has a positive price and quantity and the fallback price is positive. -/
lemma fillAveragePrice_pos (fills : List Fill) (fallback : ℚ)
    (hf : ∀ f ∈ fills, 0 < f.price ∧ 0 < f.qty) (hfb : 0 < fallback) :
    0 < fillAveragePrice fills fallback := by
  unfold fillAveragePrice
  cases fills with
  | nil => exact hfb
  | cons f fs =>
    simp only
    split_ifs with hq
    · refine div_pos (List.sum_pos _ ?_ (by simp)) hq
      intro x hx
      simp only [List.mem_map] at hx
      obtain ⟨g, hg, rfl⟩ := hx
      obtain ⟨hpr, hqt⟩ := hf g hg
      exact mul_pos hpr hqt
    · exact hfb

/-- The iteration body preserves the position invariant under the
collaborator contracts. -/
lemma inv_bodyStep (inp : IterInput) (st : LoopState) (hinv : Inv st)
    (hg : GoodInput inp) : Inv (bodyStep inp st).state := by
  obtain ⟨hflat, hhold⟩ := hinv
  have key : ∀ out, bodyStep inp st = out → Inv out.state := by
    intro out h
    unfold bodyStep at h
    split at h
    case isTrue hh =>
      obtain ⟨hb, hbp⟩ := hhold hh
      unfold holdingBody at h
      rcases hp : inp.price with e | p <;> simp only [hp] at h
      · subst h
        exact ⟨hflat, hhold⟩
      · have hpk : st.buy_price ≤ update_peak st.peak_price p :=
          le_trans hbp (le_update_peak _ _)
        split at h
        · rcases hs : inp.solBalance with e2 | sol <;> simp only [hs] at h
          · subst h
            exact inv_of_open _ hh hb hpk
          · split at h
            · rcases ho : inp.sellOrder with e3 | oo <;>
                simp only [ho] at h
              · subst h
                exact inv_of_open _ hh hb hpk
              · rcases oo with _ | o <;> simp only at h <;> subst h
                · exact inv_of_open _ hh hb hpk
                · exact inv_of_flat _ rfl rfl rfl
            · subst h
              exact inv_of_flat _ rfl rfl rfl
        · subst h
          exact inv_of_open _ hh hb hpk
    case isFalse hh =>
      have hh' : st.holding = false := by
        cases hhh : st.holding
        · rfl
        · exact absurd hhh hh
      obtain ⟨hb0, hp0⟩ := hflat hh'
      unfold notHoldingBody at h
      rcases hk : inp.klines with e | ks <;> simp only [hk] at h
      · subst h
        exact ⟨hflat, hhold⟩
      · split at h
        · subst h
          exact inv_of_flat _ hh' hb0 hp0
        · rcases hl : ks.getLast? with _ | lastK <;> simp only [hl] at h
          · subst h
            exact inv_of_flat _ hh' hb0 hp0
          · split at h
            · subst h
              exact inv_of_flat _ hh' hb0 hp0
            · split at h
              · rcases hu : inp.usdcBalance with e2 | usdc <;>
                  simp only [hu] at h
                · subst h
                  exact inv_of_flat _ hh' hb0 hp0
                · split at h
                  · rcases hpr : inp.price with e3 | p <;>
                      simp only [hpr] at h
                    · subst h
                      exact inv_of_flat _ hh' hb0 hp0
                    · rcases hbo : inp.buyOrder with e4 | ob <;>
                        simp only [hbo] at h
                      · subst h
                        exact inv_of_flat _ hh' hb0 hp0
                      · rcases ob with _ | o <;> simp only at h <;> subst h
                        · exact inv_of_flat _ hh' hb0 hp0
                        · exact inv_of_open _ rfl
                            (fillAveragePrice_pos o.fills p
                              (hg.2 o hbo) (hg.1 p hpr))
                            (le_refl _)
                  · subst h
                    exact inv_of_flat _ hh' hb0 hp0
              · subst h
                exact inv_of_flat _ hh' hb0 hp0
  exact key _ rfl

/-- One full iteration preserves the position invariant: the watchdog part
only ever touches the latch. -/
lemma inv_step (inp : IterInput) (st : LoopState) (hinv : Inv st)
    (hg : GoodInput inp) : Inv (step inp st).1 := by
  have hb := inv_bodyStep inp st hinv hg
  unfold step
  rcases hout : bodyStep inp st with s1 | s1 | ⟨s1, log⟩
  · rw [hout] at hb
    show Inv s1
    exact hb
  · rw [hout] at hb
    show Inv s1
    exact hb
  · rw [hout] at hb
    have hb1 : Inv s1 := hb
    show Inv (watchdogStep inp.tCheck inp.notifyOk s1).1
    obtain ⟨wh, wb, wp, _⟩ := watchdogStep_preserves inp.tCheck inp.notifyOk s1
    constructor
    · intro hh
      rw [wh] at hh
      rw [wb, wp]
      exact hb1.1 hh
    · intro hh
      rw [wh] at hh
      rw [wb, wp]
      exact hb1.2 hh

/-- Claim C10: every state reachable by main_loop iterations from a flat
zeroed initial state satisfies the position invariant — flat states carry
zeroed entry and peak prices, holding states a positive entry price with
the peak at or above it. Reachability assumes the collaborator contracts
(returned prices and fill prices positive, fill quantities positive). -/
theorem reachable_position_invariant (st : LoopState)
    (h : Reachable st) : Inv st := by
  induction h with
  | init s h1 h2 h3 => exact inv_of_flat s h1 h2 h3
  | next s inp hst hinp ih => exact inv_step inp s ih hinp

/-- Claim C10, witness: the invariant at the initial flat state, through
the reachability theorem. -/
theorem reachable_position_invariant_witness : Inv sampleFlatState :=
  reachable_position_invariant sampleFlatState
    (Reachable.init sampleFlatState rfl rfl rfl)

end SolSpotBot

